import Mathlib

/-!
Verification of the story-generation / pagination frontend.

Shallow embedding of the TypeScript sources:
* `src/frontend/types.ts` — data model and the backend API service layer
  (`mapApiStory` lives in the generator hook but consumes these shapes),
* the generator hook (`useStoryGenerator`): `mapApiStory`, `generateStory`,
  `updatePanel`,
* the main page: the pagination derivation (`panelCount`, `spreadsNeeded`,
  `totalStates`) and the page-role rendering of each state,
* `src/frontend/components/ComicPanel.tsx`: `handleEdit`,
* `editPanelImage` / `getImageUrl` from the API service layer.

JavaScript truthiness conventions (`x || d` treats both `null`/`undefined`
and the empty string as falsy; `n && …` treats `0` as falsy) are modelled
explicitly by the `jsOr…` / `truthy…` helpers below.
-/

/-! ## Data model (src/frontend/types.ts) -/

inductive Gender where
  | boy
  | girl
  | neutral
deriving DecidableEq, Repr

/-- Structure `KidProfile` from types.ts. -/
structure KidProfile where
  name : String
  gender : Gender
  skinTone : String
  hairColor : String
  eyeColor : String
  favoriteColor : String
  dream : String
  personality : String
  archetype : Option String
  photoUrl : Option String
  artStyle : Option String
deriving DecidableEq, Repr

/-- Structure `ComicPanelData` from types.ts.  `imageUrl` is optional; `isGenerating`
is the transient UI flag. -/
structure ComicPanelData where
  id : String
  text : String
  imagePrompt : String
  imageUrl : Option String
  isGenerating : Bool
deriving DecidableEq, Repr

/-- Structure `Story` from types.ts. -/
structure Story where
  title : String
  foreword : String
  characterDescription : String
  coverImagePrompt : String
  coverImageUrl : Option String
  panels : List ComicPanelData
deriving DecidableEq, Repr

/-! ## Remote (persisted) shapes from the backend API service layer -/

/-- Structure `KidProfileResponse` from the API service layer. -/
structure KidProfileResponse where
  id : Nat
  name : String
  gender : Gender
  skin_tone : String
  hair_color : String
  eye_color : String
  favorite_color : String
  dream : Option String
  archetype : Option String
  art_style : Option String
  created_at : String
deriving DecidableEq, Repr

/-- Structure `PanelResponse` from the API service layer; nullable fields are `Option`. -/
structure PanelResponse where
  id : Nat
  panel_order : Nat
  text : String
  image_prompt : Option String
  image_url : Option String
deriving DecidableEq, Repr

/-- Structure `StoryDetailResponse` from the API service layer. -/
structure StoryDetailResponse where
  id : Nat
  title : Option String
  foreword : Option String
  character_description : Option String
  cover_image_prompt : Option String
  cover_image_url : Option String
  is_unlocked : Bool
  created_at : String
  updated_at : String
  profile : KidProfileResponse
  panels : List PanelResponse
deriving DecidableEq, Repr

/-! ## JavaScript truthiness helpers -/

/-- JS `x || d` on a nullable string: `null`/`undefined` and `""` are falsy. -/
def jsOr (x : Option String) (d : String) : String :=
  match x with
  | none => d
  | some s => if s = "" then d else s

/-- JS `x || undefined` on a nullable string. -/
def jsOrUndef (x : Option String) : Option String :=
  match x with
  | none => none
  | some s => if s = "" then none else some s

/-- JS truthiness of an optional number (`0` is falsy). -/
def truthyNum (x : Option Nat) : Bool :=
  match x with
  | none => false
  | some n => n != 0

/-- JS truthiness of an optional string (`""` is falsy). -/
def truthyStr (x : Option String) : Bool :=
  match x with
  | none => false
  | some s => s != ""

/-! ## Pagination engine (main page)

The main page derives, from the displayed story:
  `panelCount   = story?.panels.length || 10`
  `spreadsNeeded = Math.ceil((panelCount + 2) / 2)`
  `totalStates  = 2 + spreadsNeeded`
and renders state `i` as front cover (`i == 0`), back cover
(`i == totalStates - 1`), or a spread whose left page shows the foreword
when `i == 1` and otherwise `panels[(i-1)*2 - 1]`, and whose right page
shows the closing content when `i == totalStates - 2` and otherwise
`panels[(i-1)*2]`. -/

/-- Computation `Math.ceil((c + 2) / 2)`: for naturals, `ceil(m/2) = (m+1)/2`. -/
def spreadsNeeded (c : Nat) : Nat := (c + 2 + 1) / 2

/-- Computation `totalStates = 2 + spreadsNeeded`. -/
def totalStates (c : Nat) : Nat := 2 + spreadsNeeded c

/-- Computation `story?.panels.length || 10` — no story, or an empty panel list
(length `0` is falsy), both fall back to the default `10`. -/
def panelCountOf (story : Option Story) : Nat :=
  match story with
  | none => 10
  | some s => if s.panels.length = 0 then 10 else s.panels.length

/-- Value of `spreadsNeeded` as computed by the main page from the displayed story. -/
def mainSpreadsNeeded (story : Option Story) : Nat :=
  spreadsNeeded (panelCountOf story)

/-- Value of `totalStates` as computed by the main page from the displayed story. -/
def mainTotalStates (story : Option Story) : Nat :=
  2 + mainSpreadsNeeded story

/-- What one side of a spread shows. Panel indices are integers, mirroring
the JavaScript index arithmetic `(i-1)*2 - 1` / `(i-1)*2`. -/
inductive Slot where
  | forewordSlot
  | closingSlot
  | panel (k : Int)
deriving DecidableEq, Repr

/-- The page-role classification of one pagination state. -/
inductive PageRole where
  | frontCover
  | backCover
  | spread (left : Slot) (right : Slot)
deriving DecidableEq, Repr

/-- Rendering of state `i` given the total state count `T`:
`i == 0` → front cover; `i == T-1` → back cover; otherwise a spread with
left = foreword if `i == 1` else `panels[(i-1)*2 - 1]`, and
right = closing content if `i == T-2` else `panels[(i-1)*2]`. -/
def classifyT (T : Nat) (i : Nat) : PageRole :=
  if i = 0 then .frontCover
  else if i = T - 1 then .backCover
  else .spread
    (if i = 1 then .forewordSlot else .panel (((i : Int) - 1) * 2 - 1))
    (if i = T - 2 then .closingSlot else .panel (((i : Int) - 1) * 2))

/-- Page-role classification for a panel count `n` (the pure engine). -/
def classify (n : Nat) (i : Nat) : PageRole := classifyT (totalStates n) i

/-- The content slots contributed by one state, in reading order. -/
def slotsOf (r : PageRole) : List Slot :=
  match r with
  | .spread l r => [l, r]
  | _ => []

/-- All content slots of the book for panel count `n`, in reading order
(state `0` through `totalStates n - 1`, left page before right page). -/
def slotList (n : Nat) : List Slot :=
  (List.range (totalStates n)).flatMap fun i => slotsOf (classify n i)

/-! ## String helpers

`String.startsWith` / `split` are modelled on the character list so that
proofs can evaluate them. -/

/-- JS `s.startsWith(pre)`. -/
def strStartsWith (s pre : String) : Bool := pre.data.isPrefixOf s.data

/-- JS `s.split(',')[1]`; yields `""` where JavaScript would yield
`undefined` (no comma present — never the case for a well-formed data URL). -/
def jsSplitComma1 (s : String) : String :=
  match (s.data.splitOn ',').get? 1 with
  | some cs => String.mk cs
  | none => ""

/-! ## Backend API service layer -/

/-- Default `VITE_API_BASE_URL`. -/
def API_BASE_URL : String := "http://localhost:8000"

/-- Function `getImageUrl` from the API service layer: falsy filenames resolve to
`undefined`; data URLs and absolute URLs pass through; bare filenames are
prefixed with the backend static-image path. -/
def getImageUrl (filename : Option String) : Option String :=
  match filename with
  | none => none
  | some f =>
    if f = "" then none
    else if strStartsWith f "data:" || strStartsWith f "http" then some f
    else some (API_BASE_URL ++ "/images/" ++ f)

/-- The image-resolution step at the head of `editPanelImage`: a data URL is
stripped to its base64 payload, an http(s) reference is fetched and
re-encoded (`urlToBase64`, an oracle here since it performs network I/O),
and anything else is forwarded unchanged. -/
def resolveImagePayload (urlToBase64 : String → String) (imageSource : String) : String :=
  if strStartsWith imageSource "data:" then jsSplitComma1 imageSource
  else if strStartsWith imageSource "http" then urlToBase64 imageSource
  else imageSource

/-- The single-panel persistence write `PATCH /stories/{id}/panels/{order}`
issued by `updatePanelImage`, addressed by position and carrying only the
new image payload. -/
structure PatchRequest where
  storyId : Nat
  panelOrder : Nat
  imageBase64 : String
deriving DecidableEq, Repr

/-! ## Story generator hook -/

/-- Per-panel normalization inside `mapApiStory`: nullable prompt defaults to
`""`, nullable image URL stays absent, `isGenerating` is reset. -/
def mapApiPanel (p : PanelResponse) : ComicPanelData :=
  { id := toString p.id
    text := p.text
    imagePrompt := jsOr p.image_prompt ""
    imageUrl := jsOrUndef p.image_url
    isGenerating := false }

/-- Function `mapApiStory` from the generator hook: normalizes a persisted
`StoryDetailResponse` into the internal `Story` shape. -/
def mapApiStory (data : StoryDetailResponse) : Story :=
  { title := jsOr data.title ""
    foreword := jsOr data.foreword ""
    characterDescription := jsOr data.character_description ""
    coverImagePrompt := jsOr data.cover_image_prompt ""
    coverImageUrl := jsOrUndef data.cover_image_url
    panels := data.panels.map mapApiPanel }

/-- Structure `KidProfileForGeneration` from the API service layer (snake_case
profile sent to `POST /stories/generate`). -/
structure KidProfileForGeneration where
  name : String
  gender : Gender
  skin_tone : String
  hair_color : String
  eye_color : String
  favorite_color : String
  dream : String
  archetype : Option String
  art_style : Option String
  photo_base64 : Option String
deriving DecidableEq, Repr

/-- The camelCase → snake_case conversion at the head of `generateStory`;
an inline photo data URL is stripped to its bare base64 payload, anything
else (including no photo) sends no photo. -/
def profileForApi (p : KidProfile) : KidProfileForGeneration :=
  { name := p.name
    gender := p.gender
    skin_tone := p.skinTone
    hair_color := p.hairColor
    eye_color := p.eyeColor
    favorite_color := p.favoriteColor
    dream := p.dream
    archetype := p.archetype
    art_style := p.artStyle
    photo_base64 :=
      match p.photoUrl with
      | some u => if strStartsWith u "data:" then some (jsSplitComma1 u) else none
      | none => none }

/-- The story state store owned by the generator hook: the live `Story`
(or none) and the saved-story identifier (or none). -/
structure StoreState where
  story : Option Story
  savedStoryId : Option Nat
deriving DecidableEq, Repr

/-- Function `generateStory` from the generator hook.  The combined
generate-and-save remote call `generateAndSaveStory (profileForApi p)` is
modelled by its outcome `result` (`.ok` carries `response.story`).  On
failure the rejection propagates (second component) and the store is not
touched; on success the saved id and the normalized story are set. -/
def generateStory (p : KidProfile) (st : StoreState)
    (result : Except String StoryDetailResponse) :
    StoreState × Except String Unit :=
  match profileForApi p, result with
  | _, .error e => (st, .error e)
  | _, .ok data =>
    ({ savedStoryId := some data.id, story := some (mapApiStory data) }, .ok ())

/-- Function `handleWizardComplete` from the main page: awaits `generateStory`; a
rejection is turned into exactly one `toast.error` (second component lists
the emitted toasts). -/
def handleWizardComplete (p : KidProfile) (st : StoreState)
    (result : Except String StoryDetailResponse) :
    StoreState × List String :=
  match generateStory p st result with
  | (st', .error e) => (st', [e])
  | (st', .ok _) => (st', [])

/-- JS `story.panels.findIndex(p => p.id === updated.id)`: first matching
index, `-1` when absent. -/
def findIndexId (panels : List ComicPanelData) (pid : String) : Int :=
  match panels.findIdx? (fun p => p.id = pid) with
  | some i => (i : Int)
  | none => -1

/-- The whole-story replacement performed by `updatePanel`'s `setStory`:
every panel whose id equals the updated panel's id is replaced, the rest
are kept. -/
def applyPanelUpdate (story : Story) (updated : ComicPanelData) : Story :=
  { story with
    panels := story.panels.map fun p => if p.id = updated.id then updated else p }

/-- Observable steps of `updatePanel`, in execution order: the optimistic
store update, then (possibly) the persistence write. -/
inductive EditEvent where
  | storeUpdate (story : Story)
  | patch (req : PatchRequest)
deriving DecidableEq, Repr

/-- Function `updatePanel` from the generator hook.  `patchResult` models the
outcome of the awaited `updatePanelImage` PATCH; it is only consumed by
the `console.log` / `console.error` in the `try`/`catch` (third
component), never by the store.  Returns the new store state, the ordered
event trace, and the console log lines. -/
def updatePanel (st : StoreState) (updated : ComicPanelData)
    (patchResult : Except String Unit) :
    StoreState × List EditEvent × List String :=
  match st.story with
  | none => (st, [], [])
  | some story =>
    let panelOrder : Int := findIndexId story.panels updated.id
    let story' := applyPanelUpdate story updated
    let st' : StoreState := { st with story := some story' }
    if truthyNum st.savedStoryId && (panelOrder != -1) && truthyStr updated.imageUrl then
      let req : PatchRequest :=
        { storyId := st.savedStoryId.getD 0
          panelOrder := panelOrder.toNat
          imageBase64 := updated.imageUrl.getD "" }
      match patchResult with
      | .ok _ =>
        (st', [.storeUpdate story', .patch req],
          ["Panel " ++ toString panelOrder ++ " saved to backend"])
      | .error e =>
        (st', [.storeUpdate story', .patch req],
          ["Failed to save panel edit: " ++ e])
    else (st', [.storeUpdate story'], [])

/-! ## Comic panel editing (ComicPanel component) -/

/-- One invocation of the remote edit capability `editPanelImage(...)`. -/
structure EditCall where
  imageSource : String
  editPrompt : String
  originalPrompt : String
  castGuide : String
  style : Option String
deriving DecidableEq, Repr

/-- Value `resolvedImageUrl` from the ComicPanel component: data URLs pass
through, anything else truthy goes through `getImageUrl`. -/
def resolvedImageUrl (panel : ComicPanelData) : Option String :=
  match panel.imageUrl with
  | none => none
  | some u =>
    if u = "" then none
    else if strStartsWith u "data:" then some u
    else getImageUrl (some u)

/-- Function `handleEdit` from the ComicPanel component.  `editResult` models the
outcome of the awaited `editPanelImage` call (its value is the new data
URL).  Returns the remote calls made, the panel update passed to
`onUpdate` (if any), and the error toasts. -/
def handleEdit (panel : ComicPanelData) (editPrompt : String)
    (charDesc : String) (artStyle : Option String)
    (editResult : Except String String) :
    List EditCall × Option ComicPanelData × List String :=
  if !truthyStr panel.imageUrl || editPrompt = "" then ([], none, [])
  else
    let sourceUrl :=
      match resolvedImageUrl panel with
      | some r => if r = "" then panel.imageUrl.getD "" else r
      | none => panel.imageUrl.getD ""
    let call : EditCall :=
      { imageSource := sourceUrl
        editPrompt := editPrompt
        originalPrompt := panel.imagePrompt
        castGuide := charDesc
        style := artStyle }
    match editResult with
    | .ok newImageUrl =>
      ([call], some { panel with imageUrl := some newImageUrl }, [])
    | .error _ =>
      ([call], none, ["Oops! Magic failed. Try again."])

/-! ## Sample data for witnesses and counterexamples -/

/-- A concrete profile response. -/
def sampleProfileResponse : KidProfileResponse :=
  { id := 1, name := "A", gender := .boy, skin_tone := "t", hair_color := "h",
    eye_color := "e", favorite_color := "c", dream := none, archetype := none,
    art_style := none, created_at := "" }

/-- A persisted story-detail response whose nullable fields are all null. -/
def nullDetailResponse : StoryDetailResponse :=
  { id := 5, title := none, foreword := none, character_description := none,
    cover_image_prompt := none, cover_image_url := none, is_unlocked := false,
    created_at := "", updated_at := "", profile := sampleProfileResponse,
    panels := [{ id := 42, panel_order := 0, text := "hello",
                 image_prompt := none, image_url := none }] }

/-- A concrete profile. -/
def sampleProfile : KidProfile :=
  { name := "Mia", gender := .girl, skinTone := "tan", hairColor := "black",
    eyeColor := "brown", favoriteColor := "red", dream := "astronaut",
    personality := "", archetype := none, photoUrl := none, artStyle := none }

/-- A concrete panel with a stored-filename image. -/
def samplePanelA : ComicPanelData :=
  { id := "1", text := "a", imagePrompt := "pa", imageUrl := some "img1.png",
    isGenerating := false }

/-- A second concrete panel. -/
def samplePanelB : ComicPanelData :=
  { id := "2", text := "b", imagePrompt := "pb", imageUrl := some "img2.png",
    isGenerating := false }

/-- A concrete panel with no image. -/
def samplePanelNoImage : ComicPanelData :=
  { id := "3", text := "c", imagePrompt := "pc", imageUrl := none,
    isGenerating := false }

/-- A concrete two-panel story. -/
def sampleStory : Story :=
  { title := "T", foreword := "F", characterDescription := "C",
    coverImagePrompt := "P", coverImageUrl := none,
    panels := [samplePanelA, samplePanelB] }

/-- The edited version of `samplePanelB` (fresh data-URL image). -/
def sampleUpdatedPanel : ComicPanelData :=
  { id := "2", text := "b", imagePrompt := "pb",
    imageUrl := some "data:image/png;base64,NEW", isGenerating := false }

/-- A concrete story with an empty panel list. -/
def emptyStory : Story :=
  { title := "", foreword := "", characterDescription := "",
    coverImagePrompt := "", coverImageUrl := none, panels := [] }

/-! ## C3 — pagination at ten panels -/

/-- C3 (amended): for `n = 10` the engine yields `spreadsNeeded = 6` and
`totalStates = 8`; state 0 is the front cover, state 7 the back cover,
states 1..6 are spreads; state 1 shows the foreword and `panels[0]`,
state 6 shows `panels[9]` (not `panels[8]` as the claim states) and the
closing content. -/
theorem pagination_ten_panels :
    spreadsNeeded 10 = 6 ∧ totalStates 10 = 8 ∧
    classify 10 0 = PageRole.frontCover ∧
    classify 10 7 = PageRole.backCover ∧
    classify 10 1 = PageRole.spread .forewordSlot (.panel 0) ∧
    classify 10 2 = PageRole.spread (.panel 1) (.panel 2) ∧
    classify 10 3 = PageRole.spread (.panel 3) (.panel 4) ∧
    classify 10 4 = PageRole.spread (.panel 5) (.panel 6) ∧
    classify 10 5 = PageRole.spread (.panel 7) (.panel 8) ∧
    classify 10 6 = PageRole.spread (.panel 9) .closingSlot := by
  decide

/-- C3 counterexample: at `n = 10`, state 6's left slot shows panel
index 9, not panel index 8 as the claim states. -/
theorem pagination_ten_state6_left_cex :
    classify 10 6 = PageRole.spread (.panel 9) .closingSlot ∧
    Slot.panel 9 ≠ Slot.panel 8 := by
  decide

/-! ## C10 — default panel count -/

/-- C10: with no story, or a story whose panel list is empty, the layout
is derived from the default panel count 10, so `totalStates = 8`, whereas
the pure formula at `n = 0` would give 3. -/
theorem pagination_default_panel_count (st : Story) (h : st.panels = []) :
    panelCountOf none = 10 ∧ panelCountOf (some st) = 10 ∧
    mainTotalStates none = 8 ∧ mainTotalStates (some st) = 8 ∧
    totalStates 0 = 3 := by
  refine ⟨rfl, ?_, rfl, ?_, rfl⟩ <;>
    simp [panelCountOf, mainTotalStates, mainSpreadsNeeded, spreadsNeeded,
      totalStates, h]

/-- Witness for C10 at the concrete empty-panelled story. -/
theorem pagination_default_panel_count_witness :
    emptyStory.panels = [] ∧
    (panelCountOf none = 10 ∧ panelCountOf (some emptyStory) = 10 ∧
     mainTotalStates none = 8 ∧ mainTotalStates (some emptyStory) = 8 ∧
     totalStates 0 = 3) :=
  ⟨rfl, pagination_default_panel_count emptyStory rfl⟩

/-! ## C8 — idempotence of the edit-image resolution step -/

/-- C8: a payload that is neither a data URL nor an http reference passes
through the resolution step unchanged, so applying the step twice also
returns it unchanged. -/
theorem resolve_bare_payload_idempotent (urlToBase64 : String → String)
    (s : String) (h1 : strStartsWith s "data:" = false)
    (h2 : strStartsWith s "http" = false) :
    resolveImagePayload urlToBase64 s = s ∧
    resolveImagePayload urlToBase64 (resolveImagePayload urlToBase64 s) = s := by
  have hs : resolveImagePayload urlToBase64 s = s := by
    simp [resolveImagePayload, h1, h2]
  exact ⟨hs, by rw [hs, hs]⟩

/-- Witness for C8 at a concrete bare payload. -/
theorem resolve_bare_payload_idempotent_witness :
    strStartsWith "rawpayload" "data:" = false ∧
    strStartsWith "rawpayload" "http" = false ∧
    (resolveImagePayload id "rawpayload" = "rawpayload" ∧
     resolveImagePayload id (resolveImagePayload id "rawpayload") = "rawpayload") :=
  ⟨by decide, by decide,
   resolve_bare_payload_idempotent id "rawpayload" (by decide) (by decide)⟩

/-! ## C7 — normalization of a persisted story-detail response -/

/-- C7 (amended): normalization defaults every null optional remote text
field (title, foreword, character description, cover image prompt, panel
image prompt) to the empty string, while a null image URL (cover or panel)
becomes absent rather than the empty string; `isGenerating` is false on
every returned panel, and panel order and text are preserved. -/
theorem mapApiStory_normalization (d : StoryDetailResponse) :
    (d.title = none → (mapApiStory d).title = "") ∧
    (d.foreword = none → (mapApiStory d).foreword = "") ∧
    (d.character_description = none → (mapApiStory d).characterDescription = "") ∧
    (d.cover_image_prompt = none → (mapApiStory d).coverImagePrompt = "") ∧
    (d.cover_image_url = none → (mapApiStory d).coverImageUrl = none) ∧
    (mapApiStory d).panels.length = d.panels.length ∧
    ((mapApiStory d).panels.map fun q => q.text) = (d.panels.map fun p => p.text) ∧
    (∀ q ∈ (mapApiStory d).panels, q.isGenerating = false) ∧
    (∀ (i : Nat) (p : PanelResponse), d.panels[i]? = some p →
      (mapApiStory d).panels[i]? = some (mapApiPanel p)) ∧
    (∀ p, p ∈ d.panels → p.image_prompt = none → (mapApiPanel p).imagePrompt = "") := by
  refine ⟨?_, ?_, ?_, ?_, ?_, ?_, ?_, ?_, ?_, ?_⟩
  · intro h; simp [mapApiStory, h, jsOr]
  · intro h; simp [mapApiStory, h, jsOr]
  · intro h; simp [mapApiStory, h, jsOr]
  · intro h; simp [mapApiStory, h, jsOr]
  · intro h; simp [mapApiStory, h, jsOrUndef]
  · simp [mapApiStory]
  · simp [mapApiStory, mapApiPanel, List.map_map, Function.comp]
  · intro q hq
    simp [mapApiStory] at hq
    obtain ⟨p, _, rfl⟩ := hq
    rfl
  · intro i p h
    simp [mapApiStory, List.getElem?_map, h]
  · intro p _ h
    simp [mapApiPanel, h, jsOr]

/-- Witness for C7 at the all-null story-detail response. -/
theorem mapApiStory_normalization_witness :
    nullDetailResponse.title = none ∧
    ((mapApiStory nullDetailResponse).title = "" ∧
     (mapApiStory nullDetailResponse).coverImageUrl = none) :=
  ⟨rfl,
   (mapApiStory_normalization nullDetailResponse).1 rfl,
   ((mapApiStory_normalization nullDetailResponse).2.2.2.2).1 rfl⟩

/-- C7 counterexample: a null `cover_image_url` is normalized to an
absent `coverImageUrl`, not to the empty string as the claim states. -/
theorem mapApiStory_null_cover_url_cex :
    nullDetailResponse.cover_image_url = none ∧
    (mapApiStory nullDetailResponse).coverImageUrl ≠ some "" := by
  decide

/-! ## C4 — generation failure leaves the store untouched -/

/-- C4: when the combined generate-and-save call rejects, the store's
story and saved-story id are exactly as before and exactly one error
toast is emitted; on success the saved id and the normalized story are
set and no error toast is emitted. -/
theorem generate_failure_leaves_store_unchanged (p : KidProfile)
    (st : StoreState) (r : Except String StoryDetailResponse) :
    (∀ e, r = .error e → handleWizardComplete p st r = (st, [e])) ∧
    (∀ d, r = .ok d →
      handleWizardComplete p st r =
        ({ story := some (mapApiStory d), savedStoryId := some d.id }, [])) := by
  constructor
  · rintro e rfl; rfl
  · rintro d rfl; rfl

/-- Witness for C4: a concrete failing call and a concrete succeeding
call. -/
theorem generate_failure_leaves_store_unchanged_witness :
    handleWizardComplete sampleProfile ⟨some sampleStory, some 7⟩
        (.error "boom") = (⟨some sampleStory, some 7⟩, ["boom"]) ∧
    handleWizardComplete sampleProfile ⟨none, none⟩ (.ok nullDetailResponse) =
      (⟨some (mapApiStory nullDetailResponse), some 5⟩, []) :=
  ⟨(generate_failure_leaves_store_unchanged sampleProfile
      ⟨some sampleStory, some 7⟩ (.error "boom")).1 "boom" rfl,
   (generate_failure_leaves_store_unchanged sampleProfile
      ⟨none, none⟩ (.ok nullDetailResponse)).2 nullDetailResponse rfl⟩

/-! ## C6 — edit preconditions and failure behaviour -/

/-- C6: an edit on a panel with no image, or with an empty instruction, is
rejected before any remote call (no calls, no update, no toast); and when
the remote edit call fails, no panel update is produced (the in-memory
panel is left unchanged). -/
theorem edit_rejected_without_image_or_instruction (panel : ComicPanelData)
    (prompt charDesc : String) (artStyle : Option String)
    (r : Except String String) :
    (panel.imageUrl = none ∨ prompt = "" →
      handleEdit panel prompt charDesc artStyle r = ([], none, [])) ∧
    (∀ e, r = .error e →
      (handleEdit panel prompt charDesc artStyle r).2.1 = none) := by
  constructor
  · rintro (h | h) <;> simp [handleEdit, truthyStr, h]
  · rintro e rfl
    unfold handleEdit
    split
    · rfl
    · rfl

/-- Witness for C6: a concrete imageless rejection and a concrete failing
remote edit. -/
theorem edit_rejected_without_image_or_instruction_witness :
    handleEdit samplePanelNoImage "make it blue" "cd" none (.ok "new") =
      ([], none, []) ∧
    (handleEdit samplePanelA "make it blue" "cd" none (.error "boom")).2.1 =
      none :=
  ⟨(edit_rejected_without_image_or_instruction samplePanelNoImage
      "make it blue" "cd" none (.ok "new")).1 (Or.inl rfl),
   (edit_rejected_without_image_or_instruction samplePanelA
      "make it blue" "cd" none (.error "boom")).2 "boom" rfl⟩

/-! ## C5 / C9 — panel update: optimistic write, single PATCH, frame -/

/-- In every branch of `updatePanel`, the resulting store replaces the
story wholesale with the panel-mapped story and touches nothing else. -/
lemma updatePanel_state (st : StoreState) (story : Story) (u : ComicPanelData)
    (r : Except String Unit) (hst : st.story = some story) :
    (updatePanel st u r).1 = { st with story := some (applyPanelUpdate story u) } := by
  unfold updatePanel
  rw [hst]
  dsimp only
  split
  · cases r <;> rfl
  · rfl

/-- C5: a successful edit of a panel found at position `pos` by identity
lookup, on a story with a saved id, applies the optimistic in-memory
update first and then issues exactly one position-addressed PATCH request
carrying the new image; the resulting state and event trace are the same
for a failing PATCH (`r = .error e`) as for a successful one, so the
in-memory image is never reverted. -/
theorem update_panel_patch_once (st : StoreState) (story : Story)
    (updated : ComicPanelData) (sid : Nat) (url : String) (pos : Nat)
    (r : Except String Unit)
    (hst : st.story = some story) (hsid : st.savedStoryId = some sid)
    (hsid0 : sid ≠ 0)
    (hfind : findIndexId story.panels updated.id = (pos : Int))
    (hurl : updated.imageUrl = some url) (hurl0 : url ≠ "") :
    (updatePanel st updated r).1 =
      { st with story := some (applyPanelUpdate story updated) } ∧
    (updatePanel st updated r).2.1 =
      [EditEvent.storeUpdate (applyPanelUpdate story updated),
       EditEvent.patch { storyId := sid, panelOrder := pos, imageBase64 := url }] := by
  refine ⟨updatePanel_state st story updated r hst, ?_⟩
  have hguard : (truthyNum st.savedStoryId &&
      (findIndexId story.panels updated.id != -1) &&
      truthyStr updated.imageUrl) = true := by
    rw [hsid, hurl, hfind]
    simp [truthyNum, truthyStr, hsid0, hurl0]
  unfold updatePanel
  rw [hst]
  dsimp only
  rw [hguard]
  cases r <;>
    simp [hfind, hsid, hurl, Int.toNat_natCast]

/-- Witness for C5: editing the second panel of the sample story, with a
failing PATCH, still yields the optimistic update followed by the single
PATCH addressed at position 1. -/
theorem update_panel_patch_once_witness :
    findIndexId sampleStory.panels sampleUpdatedPanel.id = (1 : Int) ∧
    ((updatePanel ⟨some sampleStory, some 7⟩ sampleUpdatedPanel (.error "net")).1 =
      { story := some (applyPanelUpdate sampleStory sampleUpdatedPanel),
        savedStoryId := some 7 } ∧
     (updatePanel ⟨some sampleStory, some 7⟩ sampleUpdatedPanel (.error "net")).2.1 =
      [EditEvent.storeUpdate (applyPanelUpdate sampleStory sampleUpdatedPanel),
       EditEvent.patch { storyId := 7, panelOrder := 1,
                         imageBase64 := "data:image/png;base64,NEW" }]) :=
  ⟨by decide,
   update_panel_patch_once ⟨some sampleStory, some 7⟩ sampleStory
     sampleUpdatedPanel 7 "data:image/png;base64,NEW" 1 (.error "net")
     rfl rfl (by decide) (by decide) rfl (by decide)⟩

/-- C9: applying a panel update replaces exactly the identity-matching
panel: panel count, order, the content of non-matching panels, the saved
id, and every non-panel story field are unchanged. -/
theorem update_panel_frame (st : StoreState) (story : Story)
    (u : ComicPanelData) (r : Except String Unit) (hst : st.story = some story) :
    (updatePanel st u r).1.story = some (applyPanelUpdate story u) ∧
    (updatePanel st u r).1.savedStoryId = st.savedStoryId ∧
    (applyPanelUpdate story u).panels.length = story.panels.length ∧
    (∀ (i : Nat) (p : ComicPanelData), story.panels[i]? = some p → p.id ≠ u.id →
      (applyPanelUpdate story u).panels[i]? = some p) ∧
    (∀ (i : Nat) (p : ComicPanelData), story.panels[i]? = some p → p.id = u.id →
      (applyPanelUpdate story u).panels[i]? = some u) ∧
    (applyPanelUpdate story u).title = story.title ∧
    (applyPanelUpdate story u).foreword = story.foreword ∧
    (applyPanelUpdate story u).characterDescription = story.characterDescription ∧
    (applyPanelUpdate story u).coverImagePrompt = story.coverImagePrompt ∧
    (applyPanelUpdate story u).coverImageUrl = story.coverImageUrl := by
  refine ⟨?_, ?_, ?_, ?_, ?_, rfl, rfl, rfl, rfl, rfl⟩
  · rw [updatePanel_state st story u r hst]
  · rw [updatePanel_state st story u r hst]
  · simp [applyPanelUpdate]
  · intro i p hip hne
    simp [applyPanelUpdate, List.getElem?_map, hip, hne]
  · intro i p hip heq
    simp [applyPanelUpdate, List.getElem?_map, hip, heq]

/-- Witness for C9 at the sample story and panel update. -/
theorem update_panel_frame_witness :
    (⟨some sampleStory, some 7⟩ : StoreState).story = some sampleStory ∧
    ((updatePanel ⟨some sampleStory, some 7⟩ sampleUpdatedPanel (.ok ())).1.story =
       some (applyPanelUpdate sampleStory sampleUpdatedPanel) ∧
     (updatePanel ⟨some sampleStory, some 7⟩ sampleUpdatedPanel (.ok ())).1.savedStoryId =
       (⟨some sampleStory, some 7⟩ : StoreState).savedStoryId ∧
     (applyPanelUpdate sampleStory sampleUpdatedPanel).panels.length =
       sampleStory.panels.length ∧
     (∀ (i : Nat) (p : ComicPanelData),
       sampleStory.panels[i]? = some p → p.id ≠ sampleUpdatedPanel.id →
       (applyPanelUpdate sampleStory sampleUpdatedPanel).panels[i]? = some p) ∧
     (∀ (i : Nat) (p : ComicPanelData),
       sampleStory.panels[i]? = some p → p.id = sampleUpdatedPanel.id →
       (applyPanelUpdate sampleStory sampleUpdatedPanel).panels[i]? =
         some sampleUpdatedPanel) ∧
     (applyPanelUpdate sampleStory sampleUpdatedPanel).title = sampleStory.title ∧
     (applyPanelUpdate sampleStory sampleUpdatedPanel).foreword = sampleStory.foreword ∧
     (applyPanelUpdate sampleStory sampleUpdatedPanel).characterDescription =
       sampleStory.characterDescription ∧
     (applyPanelUpdate sampleStory sampleUpdatedPanel).coverImagePrompt =
       sampleStory.coverImagePrompt ∧
     (applyPanelUpdate sampleStory sampleUpdatedPanel).coverImageUrl =
       sampleStory.coverImageUrl) :=
  ⟨rfl,
   update_panel_frame ⟨some sampleStory, some 7⟩ sampleStory
     sampleUpdatedPanel (.ok ()) rfl⟩

/-! ## C2 — pagination formula for the displayed story -/

/-- Ceiling of a natural number halved, as computed by the engine. -/
lemma ceil_half_nat (m : Nat) : ⌈(m : ℚ) / 2⌉ = (((m + 1) / 2 : Nat) : ℤ) := by
  obtain ⟨q, hq⟩ : ∃ q : Nat, (m + 1) / 2 = q := ⟨_, rfl⟩
  have h1 : m ≤ 2 * q := by omega
  have h2 : 2 * q ≤ m + 1 := by omega
  have hc1 : (m : ℚ) ≤ 2 * (q : ℚ) := by exact_mod_cast h1
  have hc2 : 2 * (q : ℚ) ≤ (m : ℚ) + 1 := by exact_mod_cast h2
  rw [hq, Int.ceil_eq_iff]
  constructor
  · push_cast
    linarith
  · push_cast
    linarith

/-- The state one before the end is always classified as the back cover
(the total state count is at least 3 for every panel count). -/
lemma classify_last (n : Nat) : classify n (totalStates n - 1) = PageRole.backCover := by
  have h3 : 3 ≤ totalStates n := by unfold totalStates spreadsNeeded; omega
  unfold classify classifyT
  rw [if_neg (by omega), if_pos rfl]

/-- C2 (amended): for every displayed story with at least one panel, the
engine computes `spreadsNeeded = ceil((n + 2) / 2)` and
`totalStates = 2 + spreadsNeeded` from the story's actual panel count `n`,
classifying state 0 as the front cover and state `totalStates - 1` as the
back cover.  (At `n = 0` the `|| 10` default kicks in instead — see the
counterexample.) -/
theorem pagination_formula_of_displayed_story (st : Story)
    (h : 1 ≤ st.panels.length) :
    ((mainSpreadsNeeded (some st) : ℤ) = ⌈((st.panels.length : ℚ) + 2) / 2⌉) ∧
    mainTotalStates (some st) = 2 + mainSpreadsNeeded (some st) ∧
    classify (panelCountOf (some st)) 0 = PageRole.frontCover ∧
    classify (panelCountOf (some st)) (mainTotalStates (some st) - 1) =
      PageRole.backCover := by
  have hpc : panelCountOf (some st) = st.panels.length := by
    show (if st.panels.length = 0 then 10 else st.panels.length) = st.panels.length
    rw [if_neg (by omega)]
  refine ⟨?_, rfl, rfl, ?_⟩
  · have hq : ((st.panels.length : ℚ) + 2) = ((st.panels.length + 2 : Nat) : ℚ) := by
      push_cast; ring_nf
    rw [hq, ceil_half_nat]
    unfold mainSpreadsNeeded spreadsNeeded
    rw [hpc]
  · exact classify_last (panelCountOf (some st))

/-- Witness for C2 at the two-panel sample story. -/
theorem pagination_formula_of_displayed_story_witness :
    1 ≤ sampleStory.panels.length ∧
    (((mainSpreadsNeeded (some sampleStory) : ℤ) =
        ⌈((sampleStory.panels.length : ℚ) + 2) / 2⌉) ∧
     mainTotalStates (some sampleStory) = 2 + mainSpreadsNeeded (some sampleStory) ∧
     classify (panelCountOf (some sampleStory)) 0 = PageRole.frontCover ∧
     classify (panelCountOf (some sampleStory))
       (mainTotalStates (some sampleStory) - 1) = PageRole.backCover) :=
  ⟨by decide, pagination_formula_of_displayed_story sampleStory (by decide)⟩

/-- C2 counterexample: for a displayed story with zero panels the engine
computes `totalStates = 8` (from the default count 10), while the claimed
formula gives `2 + ceil((0 + 2) / 2) = 3`. -/
theorem pagination_formula_cex :
    emptyStory.panels.length = 0 ∧
    mainTotalStates (some emptyStory) = 8 ∧
    (2 + ⌈((emptyStory.panels.length : ℚ) + 2) / 2⌉ : ℤ) = 3 := by
  refine ⟨rfl, rfl, ?_⟩
  show (2 + ⌈(((0:Nat) : ℚ) + 2) / 2⌉ : ℤ) = 3
  norm_num

/-! ## C1 — reading order of the whole book -/

/-- Congruence for `flatMap` over a list, pointwise on members. -/
lemma flatMap_congr_mem {α β : Type} {l : List α} {f g : α → List β}
    (h : ∀ a ∈ l, f a = g a) : l.flatMap f = l.flatMap g := by
  induction l with
  | nil => rfl
  | cons a l ih =>
    simp only [List.flatMap_cons]
    rw [h a (by simp), ih (fun b hb => h b (by simp [hb]))]

/-- The interior spreads `i = 2, …, t+1` contribute the panels
`1, 2, …, 2t` in reading order. -/
lemma flatMap_pureSpreads (t : Nat) :
    (List.range' 2 t).flatMap
      (fun i => [Slot.panel (((i : Int) - 1) * 2 - 1),
                 Slot.panel (((i : Int) - 1) * 2)]) =
    (List.range' 1 (2 * t)).map (fun k : Nat => Slot.panel (k : Int)) := by
  induction t with
  | zero => rfl
  | succ t ih =>
    rw [List.range'_concat, List.flatMap_append, ih]
    rw [show 2 * (t + 1) = (2 * t + 1) + 1 by omega]
    rw [List.range'_concat, List.range'_concat]
    simp only [List.flatMap_cons, List.flatMap_nil, List.append_nil,
      List.map_append, List.map_cons, List.map_nil, List.append_assoc]
    congr 1
    simp only [List.cons_append, List.nil_append, List.cons.injEq,
      Slot.panel.injEq, and_true]
    constructor <;> (push_cast; ring_nf)

/-- Decomposition of the state indices `0, …, S'+3` into the covers, the
first spread, the interior spreads, and the last spread. -/
lemma range_split (S' : Nat) :
    List.range (S' + 4) =
      0 :: 1 :: ((List.range' 2 S' ++ [S' + 2]) ++ [S' + 3]) := by
  rw [List.range_eq_range']
  rw [show S' + 4 = (S' + 3) + 1 by omega, List.range'_succ]
  rw [show S' + 3 = (S' + 2) + 1 by omega, List.range'_succ]
  rw [show S' + 2 = (S' + 1) + 1 by omega, List.range'_concat]
  rw [List.range'_concat]
  simp
  omega

/-- For a book with `S' + 2` spreads (total states `S' + 4`), the content
slots in reading order are the foreword, panels `0, …, 2S'+1`, and the
closing content. -/
lemma slotList_core (S' : Nat) :
    (List.range (S' + 4)).flatMap (fun i => slotsOf (classifyT (S' + 4) i)) =
    Slot.forewordSlot ::
      ((List.range (2 * S' + 2)).map fun k : Nat => Slot.panel (k : Int)) ++
      [Slot.closingSlot] := by
  have hf0 : slotsOf (classifyT (S' + 4) 0) = [] := rfl
  have hf1 : slotsOf (classifyT (S' + 4) 1) = [Slot.forewordSlot, Slot.panel 0] := by
    unfold classifyT
    rw [if_neg (by omega), if_neg (by omega), if_pos rfl, if_neg (by omega)]
    show [Slot.forewordSlot, Slot.panel (((1 : Int) - 1) * 2)] = _
    norm_num
  have hfS2 : slotsOf (classifyT (S' + 4) (S' + 2)) =
      [Slot.panel (2 * (S' : Int) + 1), Slot.closingSlot] := by
    unfold classifyT
    rw [if_neg (by omega), if_neg (by omega), if_neg (by omega), if_pos (by omega)]
    show [Slot.panel (((↑(S' + 2) : Int) - 1) * 2 - 1), Slot.closingSlot] = _
    congr 1
    push_cast
    ring_nf
  have hfS3 : slotsOf (classifyT (S' + 4) (S' + 3)) = [] := by
    unfold classifyT
    rw [if_neg (by omega), if_pos (by omega)]
    rfl
  have hmid : ∀ i ∈ List.range' 2 S',
      slotsOf (classifyT (S' + 4) i) =
        [Slot.panel (((i : Int) - 1) * 2 - 1), Slot.panel (((i : Int) - 1) * 2)] := by
    intro i hi
    rw [List.mem_range'_1] at hi
    unfold classifyT
    rw [if_neg (by omega), if_neg (by omega), if_neg (by omega), if_neg (by omega)]
    rfl
  rw [range_split]
  simp only [List.flatMap_cons, List.flatMap_append, hf0, hf1]
  rw [flatMap_congr_mem hmid, flatMap_pureSpreads]
  simp only [List.flatMap_cons, List.flatMap_nil, hfS2, hfS3]
  rw [List.range_eq_range']
  rw [show 2 * S' + 2 = (2 * S' + 1) + 1 by omega, List.range'_succ]
  rw [List.range'_concat]
  simp only [List.map_append, List.map_cons, List.map_nil, List.append_assoc,
    List.cons_append, List.nil_append, List.append_nil, List.cons.injEq,
    Slot.panel.injEq, true_and, and_true]
  push_cast
  refine ⟨trivial, ?_⟩
  rw [show (1 + 1 * (2 * (S' : Int))) = 2 * (S' : Int) + 1 by ring_nf]

/-- C1 (amended): for every even panel count `n`, the book's content
slots in reading order are exactly the foreword, then panels
`0, 1, …, n-1` in increasing order, then the closing content — so the
foreword and closing content each appear exactly once, every panel index
in `[0, n-1]` appears at exactly one slot, the mapping is
order-preserving, and no slot refers to a panel index outside `[0, n-1]`.
(For odd `n` the last spread's left slot refers to the out-of-range panel
index `n` — see the counterexample.) -/
theorem slotList_even_reading_order (n : Nat) (h : n % 2 = 0) :
    slotList n = Slot.forewordSlot ::
      ((List.range n).map fun k : Nat => Slot.panel (k : Int)) ++
      [Slot.closingSlot] ∧
    (∀ k : Int, Slot.panel k ∈ slotList n → 0 ≤ k ∧ k < (n : Int)) := by
  have hmain : slotList n = Slot.forewordSlot ::
      ((List.range n).map fun k : Nat => Slot.panel (k : Int)) ++
      [Slot.closingSlot] := by
    rcases n with _ | n
    · decide
    · obtain ⟨S', hS⟩ : ∃ S', n + 1 = 2 * S' + 2 := ⟨(n - 1) / 2, by omega⟩
      rw [hS]
      have hT : totalStates (2 * S' + 2) = S' + 4 := by
        unfold totalStates spreadsNeeded
        omega
      unfold slotList classify
      rw [hT]
      exact slotList_core S'
  refine ⟨hmain, ?_⟩
  intro k hk
  rw [hmain] at hk
  rcases List.mem_cons.mp hk with h1 | h2
  · simp at h1
  rcases List.mem_append.mp h2 with h3 | h4
  · simp only [List.mem_map, List.mem_range] at h3
    obtain ⟨a, ha, hak⟩ := h3
    have hak2 : (a : Int) = k := by simpa using hak
    omega
  · simp at h4

/-- Witness for C1 at the even panel count 4. -/
theorem slotList_even_reading_order_witness :
    4 % 2 = 0 ∧
    (slotList 4 = Slot.forewordSlot ::
       ((List.range 4).map fun k : Nat => Slot.panel (k : Int)) ++
       [Slot.closingSlot] ∧
     (∀ k : Int, Slot.panel k ∈ slotList 4 → 0 ≤ k ∧ k < ((4 : Nat) : Int))) :=
  ⟨by decide, slotList_even_reading_order 4 (by decide)⟩

/-- C1 counterexample: for the odd panel count `n = 1`, the slot list
contains a reference to panel index 1, which is outside `[0, n-1] = [0, 0]`. -/
theorem slotList_out_of_range_cex :
    Slot.panel 1 ∈ slotList 1 ∧ ¬((1 : Int) < ((1 : Nat) : Int)) := by
  decide
